import Mathlib

/-!
Shallow embedding of the Cape Cod Tides Alexa skill handler (src/index.js).

JavaScript numbers that can be NaN are modelled by `JSNum`; water-level
readings are modelled as rationals (the source stores them as decimal
strings and coerces them to numbers); host-supplied behaviour — the
`Date`-string parser of the JavaScript runtime, the two formatting helpers
of the external `alexaDateUtil` module, and the network — is passed in as
explicit parameters, so every theorem quantifies over it.
-/

namespace CapeCodTides

/-- A JavaScript number that is either an integer or NaN
(the only values arising in the date arithmetic of the source). -/
inductive JSNum where
  | nan : JSNum
  | int : Int → JSNum
deriving DecidableEq, Repr

/-- JavaScript string conversion of a `JSNum` (`NaN` prints as "NaN"). -/
def JSNum.toStr : JSNum → String
  | .nan => "NaN"
  | .int n => toString n

/-- JavaScript comparison `x < 10` (false when x is NaN). -/
def JSNum.lt10 : JSNum → Bool
  | .nan => false
  | .int n => n < 10

/-- JavaScript `x + 1` (NaN + 1 = NaN). -/
def JSNum.add1 : JSNum → JSNum
  | .nan => .nan
  | .int n => .int (n + 1)

/-- The fields of a JavaScript `Date` read by the source:
`getFullYear()`, `getMonth()` (0-based) and `getDate()`.
All three are NaN for an Invalid Date. -/
structure JSDateParts where
  fullYear : JSNum
  month : JSNum
  dayOfMonth : JSNum
deriving DecidableEq, Repr

/-- The components of a successfully parsed calendar date, as the
JavaScript accessors report them (`month` is 0-based). -/
structure DateFields where
  year : Int
  month : Int
  day : Int
deriving DecidableEq, Repr

/-- JavaScript string truthiness for an optional slot value:
a missing slot, an undefined value and the empty string are all falsy. -/
def jsTruthy : Option String → Bool
  | none => false
  | some s => s ≠ ""

/-- Read an optional string the way JavaScript concatenation would
(an absent value prints as "undefined"). -/
def jsStr : Option String → String
  | none => "undefined"
  | some s => s

/-- `toLowerCase()` on the ASCII range used by the station table. -/
def lowerStr (s : String) : String := ⟨s.data.map Char.toLower⟩

/-- An incoming intent: the `City` and `Date` slot values.
`none` stands for a missing slot or a slot with no value. -/
structure Intent where
  city : Option String
  date : Option String
deriving DecidableEq, Repr

/-- The station table `STATIONS` of the source, in source order. -/
def STATIONS : List (String × Nat) :=
  [("plymouth", 8446493),
   ("barnstable", 8447335),
   ("sesuit harbor", 8447241),
   ("wellfleet", 8446613),
   ("provincetown", 8446121),
   ("chatham stage harbor", 8447505),
   ("harwichport wychmere harbor", 8447506),
   ("south yarmouth bass river", 8447504),
   ("dennisport", 8447525),
   ("hyannisport", 8447605),
   ("falmouth", 8447865),
   ("woods hole", 8447939),
   ("marion", 8447385),
   ("new bedford", 8447584),
   ("westport", 8447975),
   ("duxbury", 8446166),
   ("hingham", 8444775)]

/-- A value read off the `STATIONS` object by property access: either an
own entry (a station number) or a property inherited from
`Object.prototype` (a function, or `Object.prototype` itself for
`__proto__`) — every one of them truthy in the source's runtime. -/
inductive JSProp where
  | num : Nat → JSProp
  | inherited : String → JSProp
deriving DecidableEq, Repr

/-- The property names an object literal inherits from
`Object.prototype`, all bound to truthy values. -/
def objectPrototypeProps : List String :=
  ["constructor", "hasOwnProperty", "isPrototypeOf", "propertyIsEnumerable",
   "toLocaleString", "toString", "valueOf", "__defineGetter__", "__defineSetter__",
   "__lookupGetter__", "__lookupSetter__", "__proto__"]

/-- Property lookup `STATIONS[key]` of the source: an own key yields its
station number; a key naming an inherited `Object.prototype` property
yields that (truthy) property; anything else is undefined. -/
def stationsLookup (key : String) : Option JSProp :=
  match (STATIONS.find? (fun p => p.1 = key)).map (fun p => p.2) with
  | some n => some (.num n)
  | none => if key ∈ objectPrototypeProps then some (.inherited key) else none

/-- `getAllStationsText()` of the source: each city name followed by ", ". -/
def getAllStationsText : String :=
  String.join (STATIONS.map (fun p => p.1 ++ ", "))

/-- The record returned by `getCityStationFromIntent`: the source returns
object literals that carry an `error` flag and optionally a `city` string
and a `station` number. -/
structure CityStation where
  error : Bool
  city : Option String
  station : Option JSProp
deriving DecidableEq, Repr

/-- `getCityStationFromIntent(intent, assignDefault)` of the source. -/
def getCityStationFromIntent (intent : Intent) (assignDefault : Bool) : CityStation :=
  if ¬ jsTruthy intent.city then
    if ¬ assignDefault then
      { error := true, city := none, station := none }
    else
      { error := false, city := some "Plymouth", station := stationsLookup "plymouth" }
  else
    let cityName := jsStr intent.city
    match stationsLookup (lowerStr cityName) with
    | some id => { error := false, city := some cityName, station := some id }
    | none => { error := true, city := some cityName, station := none }

/-- The record returned by `getDateFromIntent`: a display string and the
query-string fragment selecting the date range. -/
structure ResolvedDate where
  displayDate : String
  requestDateParam : String
deriving DecidableEq, Repr

/-- `getDateFromIntent(intent)` of the source. `parse` models the host
`new Date(string)` constructor (`none` = Invalid Date) and `fmtDate`
models the external `alexaDateUtil.getFormattedDate`. The codomain is
`Option` because the caller tests the result for JavaScript truthiness
(`!date`); the function body itself only ever returns object literals. -/
def getDateFromIntent (parse : String → Option DateFields)
    (fmtDate : JSDateParts → String) (dateSlot : Option String) :
    Option ResolvedDate :=
  if ¬ jsTruthy dateSlot then
    some { displayDate := "Today", requestDateParam := "date=today" }
  else
    let d : JSDateParts :=
      match parse (jsStr dateSlot) with
      | some f => { fullYear := .int f.year, month := .int f.month, dayOfMonth := .int f.day }
      | none => { fullYear := .nan, month := .nan, dayOfMonth := .nan }
    let month := d.month.add1
    let monthStr := if month.lt10 then "0" ++ month.toStr else month.toStr
    let dayStr := if d.dayOfMonth.lt10 then "0" ++ d.dayOfMonth.toStr else d.dayOfMonth.toStr
    let requestDay := "begin_date=" ++ d.fullYear.toStr ++ monthStr ++ dayStr ++ "&range=24"
    some { displayDate := fmtDate d, requestDateParam := requestDay }

/-- One entry of the NOAA `predictions` array: a timestamp string `t`
and the numeric value of the water-level string `v`. -/
structure Prediction where
  t : String
  v : ℚ
deriving DecidableEq, Repr

/-- `isTideIncreasing(lastPrediction, currentPrediction)` of the source:
strict increase of the parsed levels. -/
def isTideIncreasing (lastPrediction currentPrediction : Prediction) : Bool :=
  lastPrediction.v < currentPrediction.v

/-- `getFormattedHeight(height)` of the source: take the absolute value,
band the fractional part (`height % 1`) at 0.25 and 0.75, restore the
sign, and append " and a half"/" feet". The JavaScript remainder
`h % 1` of a non-negative number is its fractional part; it is written
here on the numerator and denominator so that it evaluates by
reduction, and `ratMod1_eq_fract` below identifies it with
`Int.fract`. -/
def getFormattedHeight (height : ℚ) : String :=
  let h := if height < 0 then -height else height
  let remainder : ℚ := mkRat (h.num % (h.den : Int)) h.den
  let pair : Int × String :=
    if remainder < mkRat 1 4 then (⌊h⌋, "")
    else if remainder < mkRat 3 4 then (⌊h⌋, " and a half")
    else (⌈h⌉, "")
  let feet := if height < 0 then -pair.1 else pair.1
  toString feet ++ pair.2 ++ " feet"

/-- The mutable locals of the `findHighTide` scan loop. -/
structure TideScan where
  lastP : Option Prediction
  firstHT : Option Prediction
  secondHT : Option Prediction
  lowT : Option Prediction
  firstDone : Bool
deriving DecidableEq, Repr

/-- The `for` loop of `findHighTide`, one constructor case per iteration;
returning without recursing models the `break`. -/
def tideLoop : TideScan → List Prediction → TideScan
  | st, [] => st
  | st, p :: ps =>
    match st.lastP with
    | none => tideLoop { st with lastP := some p } ps
    | some last =>
      if isTideIncreasing last p then
        if ¬ st.firstDone then
          tideLoop { st with firstHT := some p, lastP := some p } ps
        else
          tideLoop { st with secondHT := some p, lastP := some p } ps
      else
        if ¬ st.firstDone ∧ st.firstHT.isSome then
          tideLoop { st with firstDone := true, lowT := some p, lastP := some p } ps
        else if st.secondHT.isSome then
          st
        else if st.firstDone then
          tideLoop { st with lowT := some p, lastP := some p } ps
        else
          tideLoop { st with lastP := some p } ps

/-- The record built at the end of `findHighTide`. -/
structure TideResult where
  firstHighTideTime : String
  firstHighTideHeight : String
  lowTideTime : String
  lowTideHeight : String
  secondHighTideTime : String
  secondHighTideHeight : String
deriving DecidableEq, Repr

/-- `findHighTide(noaaResponseObj)` of the source. `fmtTime` models the
composition `alexaDateUtil.getFormattedTime(new Date(t))`. The source
unconditionally dereferences `firstHighTide`, `lowTide` and
`secondHighTide` when building the result, so when any of them is still
undefined it throws a TypeError: that crash is modelled by `none`. -/
def findHighTide (fmtTime : String → String) (predictions : List Prediction) :
    Option TideResult :=
  let st := tideLoop { lastP := none, firstHT := none, secondHT := none,
                       lowT := none, firstDone := false } predictions
  match st.firstHT, st.lowT, st.secondHT with
  | some f, some l, some s =>
    some { firstHighTideTime := fmtTime f.t,
           firstHighTideHeight := getFormattedHeight f.v,
           lowTideTime := fmtTime l.t,
           lowTideHeight := getFormattedHeight l.v,
           secondHighTideTime := fmtTime s.t,
           secondHighTideHeight := getFormattedHeight s.v }
  | _, _, _ => none

/-- The parsed JSON body of a NOAA response: either it carries an
`error.message`, or it carries a `predictions` array. -/
inductive NoaaBody where
  | withError : String → NoaaBody
  | withPredictions : List Prediction → NoaaBody
deriving DecidableEq, Repr

/-- An HTTP exchange as `makeTideRequest` observes it: a status code and
a body; `none` for the body models text that `JSON.parse` rejects
(the parse throws). -/
structure HttpResponse where
  statusCode : Int
  body : Option NoaaBody
deriving DecidableEq, Repr

/-- What the network does for the single `https.get` of a turn. -/
inductive NetBehavior where
  | transportError : String → NetBehavior
  | response : HttpResponse → NetBehavior
deriving DecidableEq, Repr

/-- One invocation of `tideResponseCallback`: either with an error or
with a `findHighTide` result. -/
inductive CbCall where
  | err : String → CbCall
  | ok : TideResult → CbCall
deriving DecidableEq, Repr

/-- The observable outcome of the `https.get` handlers of
`makeTideRequest`: the callback invocations, in order, and whether an
uncaught exception escaped the response handlers. -/
structure HandlerRun where
  calls : List CbCall
  crashed : Bool
deriving DecidableEq, Repr

/-- The response handlers of `makeTideRequest` (src/index.js lines
375-403). A non-200 status invokes the callback with an error but does
not return, so the `end` handler still runs. In the `end` handler an
unparseable body makes `JSON.parse` throw; a body with an `error` field
hits the misspelt variable `noaaResponseObj` and throws a
ReferenceError before the callback can be invoked; a predictions body
on which `findHighTide` finds no complete summary throws a TypeError.
All three uncaught throws are recorded as `crashed`. -/
def makeTideRequestRun (fmtTime : String → String) (net : NetBehavior) : HandlerRun :=
  match net with
  | .transportError msg => { calls := [.err msg], crashed := false }
  | .response r =>
    let pre : List CbCall := if r.statusCode ≠ 200 then [.err "Non 200 Response"] else []
    match r.body with
    | none => { calls := pre, crashed := true }
    | some (.withError _) => { calls := pre, crashed := true }
    | some (.withPredictions ps) =>
      match findHighTide fmtTime ps with
      | none => { calls := pre, crashed := true }
      | some result => { calls := pre ++ [.ok result], crashed := false }

/-- The host-supplied behaviour a turn depends on: the `new Date(string)`
parser, the two `alexaDateUtil` formatters, and the network. -/
structure Host where
  parse : String → Option DateFields
  fmtDate : JSDateParts → String
  fmtTime : String → String
  net : NetBehavior

/-- An Alexa response object: `ask` leaves the session open awaiting a
follow-up, `tellWithCard` ends it with a card. -/
inductive ResponseAction where
  | ask : String → String → ResponseAction
  | tellWithCard : String → String → String → ResponseAction
deriving DecidableEq, Repr

/-- The session attribute bag: the stored city and the stored date. -/
structure Session where
  city : Option CityStation
  date : Option ResolvedDate
deriving DecidableEq, Repr

/-- A record of one outbound `https.get`: the station interpolated into
the query string, and the date fragment of the query string. -/
structure FetchCall where
  station : Option JSProp
  dateParam : String
deriving DecidableEq, Repr

/-- What handling one turn produced: the responses emitted (one per
callback invocation, or one direct `ask`), the session as left behind,
the outbound fetches, and whether an uncaught exception escaped. -/
structure Outcome where
  responses : List ResponseAction
  session : Session
  fetches : List FetchCall
  crashed : Bool
deriving DecidableEq, Repr

/-- The fixed error sentence of `tideResponseCallback`. -/
def serviceProblemText : String :=
  "Sorry, the National Oceanic tide service is experiencing a problem. Please try again later"

/-- The body of `tideResponseCallback` inside `getFinalTideResponse`:
map one callback invocation to the spoken output. -/
def tideResponseSpeech (date : ResolvedDate) (cityStation : CityStation) :
    CbCall → String
  | .err _ => serviceProblemText
  | .ok r =>
    date.displayDate ++ " in " ++ jsStr cityStation.city
      ++ ", the first high tide will be around " ++ r.firstHighTideTime
      ++ ", followed by a low tide at around " ++ r.lowTideTime
      ++ ". The second high tide will be around " ++ r.secondHighTideTime

/-- `getFinalTideResponse(cityStation, date, response)` of the source:
issue the one fetch and answer each callback invocation with
`response.tellWithCard(speech, "CapeCodTides", speech)`. -/
def getFinalTideResponse (host : Host) (cityStation : CityStation)
    (date : ResolvedDate) (session : Session) : Outcome :=
  let run := makeTideRequestRun host.fmtTime host.net
  { responses := run.calls.map (fun c =>
      let speech := tideResponseSpeech date cityStation c
      .tellWithCard speech "CapeCodTides" speech),
    session := session,
    fetches := [{ station := cityStation.station, dateParam := date.requestDateParam }],
    crashed := run.crashed }

/-- The re-prompt naming the supported towns used when a city is
rejected in `handleCityDialogRequest` and `handleOneshotTideRequest`. -/
def coastalTownsReprompt : String :=
  "Currently, I know tide information for these coastal towns: " ++ getAllStationsText
    ++ "Which town would you like tide information for?"

/-- The unknown-city speech: the re-prompt, prefixed with an echo of the
rejected input when the slot carried a value. -/
def unknownCitySpeech (cityStation : CityStation) : String :=
  match cityStation.city with
  | some c =>
    if c ≠ "" then
      "I\x27m sorry, I don\x27t have any data for " ++ c ++ ". " ++ coastalTownsReprompt
    else coastalTownsReprompt
  | none => coastalTownsReprompt

/-- The date re-prompt of `handleDateDialogRequest` and the one-shot
date-failure branch. -/
def dateReprompt : String :=
  "Please try again saying a day of the week, for example, Saturday. "
    ++ "For which date would you like tide information?"

/-- `handleCityDialogRequest(intent, session, response)` of the source. -/
def handleCityDialogRequest (host : Host) (intent : Intent) (session : Session) :
    Outcome :=
  let cityStation := getCityStationFromIntent intent false
  if cityStation.error then
    { responses := [.ask (unknownCitySpeech cityStation) coastalTownsReprompt],
      session := session, fetches := [], crashed := false }
  else
    match session.date with
    | some date => getFinalTideResponse host cityStation date session
    | none =>
      { responses := [.ask "For which date?"
          ("For which date would you like tide information for "
            ++ jsStr cityStation.city ++ "?")],
        session := { session with city := some cityStation },
        fetches := [], crashed := false }

/-- `handleDateDialogRequest(intent, session, response)` of the source. -/
def handleDateDialogRequest (host : Host) (intent : Intent) (session : Session) :
    Outcome :=
  match getDateFromIntent host.parse host.fmtDate intent.date with
  | none =>
    { responses := [.ask ("I\x27m sorry, I didn\x27t understand that date. " ++ dateReprompt)
        dateReprompt],
      session := session, fetches := [], crashed := false }
  | some date =>
    match session.city with
    | some cityStation => getFinalTideResponse host cityStation date session
    | none =>
      { responses := [.ask ("For which town would you like tide information for "
          ++ date.displayDate ++ "?") "For which town?"],
        session := { session with date := some date },
        fetches := [], crashed := false }

/-- `handleSupportedCitiesRequest` of the source. -/
def handleSupportedCitiesRequest (session : Session) : Outcome :=
  { responses := [.ask ("Currently, I know tide information for these towns: "
      ++ getAllStationsText ++ "Which town?") "Which town?"],
    session := session, fetches := [], crashed := false }

/-- `handleNoSlotDialogRequest` of the source. -/
def handleNoSlotDialogRequest (session : Session) : Outcome :=
  match session.city with
  | some _ =>
    { responses := [.ask "Please try again saying a day of the week, for example, Saturday. "
        "Please try again saying a day of the week, for example, Saturday. "],
      session := session, fetches := [], crashed := false }
  | none => handleSupportedCitiesRequest session

/-- `handleOneshotTideRequest(intent, session, response)` of the source. -/
def handleOneshotTideRequest (host : Host) (intent : Intent) (session : Session) :
    Outcome :=
  let cityStation := getCityStationFromIntent intent true
  if cityStation.error then
    { responses := [.ask (unknownCitySpeech cityStation) coastalTownsReprompt],
      session := session, fetches := [], crashed := false }
  else
    match getDateFromIntent host.parse host.fmtDate intent.date with
    | none =>
      { responses := [.ask ("I\x27m sorry, I didn\x27t understand that date. " ++ dateReprompt)
          dateReprompt],
        session := { session with city := some cityStation },
        fetches := [], crashed := false }
    | some date => getFinalTideResponse host cityStation date session

/-- The `DialogTideIntent` dispatch of the source: a valued City slot
goes to the city handler, else a valued Date slot to the date handler,
else to the no-slot handler. -/
def dialogTideIntent (host : Host) (intent : Intent) (session : Session) : Outcome :=
  if jsTruthy intent.city then handleCityDialogRequest host intent session
  else if jsTruthy intent.date then handleDateDialogRequest host intent session
  else handleNoSlotDialogRequest session

/-- The synthetic prediction series of the specification: rising to 4.0
at t1, falling to 0.5 at t2, rising to 6.0 at t3, falling afterward. -/
def synthSeries : List Prediction :=
  [{ t := "t0", v := mkRat 2 1 },
   { t := "t1", v := mkRat 4 1 },
   { t := "t2", v := mkRat 1 2 },
   { t := "t3", v := mkRat 6 1 },
   { t := "t4", v := mkRat 5 1 }]

/-- A strictly rising prediction series: it has no direction reversal,
so `findHighTide` never assigns `lowTide` or `secondHighTide`. -/
def risingSeries : List Prediction :=
  [{ t := "r0", v := mkRat 1 1 },
   { t := "r1", v := mkRat 2 1 },
   { t := "r2", v := mkRat 3 1 }]

/-- The height-formatting rule as the specification words it: band the
fractional part of the magnitude (below .25 to the whole number below,
from .25 up to but excluding .75 to a half, otherwise to the whole
number above), put the sign back, and render "<N> feet" or
"<N> and a half feet". Stated separately from `getFormattedHeight` so
that the two can be compared. -/
def getFormattedHeightSpec (h : ℚ) : String :=
  let magnitude := |h|
  let f := Int.fract magnitude
  let rounded : Int × Bool :=
    if f < (1 : ℚ)/4 then (⌊magnitude⌋, false)
    else if f < (3 : ℚ)/4 then (⌊magnitude⌋, true)
    else (⌈magnitude⌉, false)
  let signed := if h < 0 then -rounded.1 else rounded.1
  toString signed ++ (if rounded.2 then " and a half" else "") ++ " feet"

/-- A concrete host used to instantiate universally quantified theorems:
its parser recognises exactly the string "saturday" (as June 20th 2017,
month reported 0-based), and its network errors out. -/
def sampleHost : Host :=
  { parse := fun s => if s = "saturday" then some { year := 2017, month := 5, day := 20 } else none,
    fmtDate := fun _ => "Saturday June 20th",
    fmtTime := id,
    net := .transportError "ECONNRESET" }

/-! ## Helper lemmas -/

/-- The numerator-denominator remainder used in `getFormattedHeight` is
the fractional part. -/
theorem ratMod1_eq_fract (a : ℚ) :
    (mkRat (a.num % (a.den : Int)) a.den : ℚ) = Int.fract a := by
  rw [Rat.mkRat_eq_div, Int.fract, Rat.floor_def, Int.emod_def]
  push_cast
  rw [sub_div]
  congr 1
  · exact Rat.num_div_den a
  · rw [mul_comm, mul_div_assoc, div_self (by exact_mod_cast a.den_nz), mul_one]

/-- Both return statements of `getDateFromIntent` return an object, so
the result is always truthy, whatever the host date parser does. -/
theorem getDateFromIntent_isSome (parse : String → Option DateFields)
    (fmtDate : JSDateParts → String) (dateSlot : Option String) :
    (getDateFromIntent parse fmtDate dateSlot).isSome = true := by
  unfold getDateFromIntent
  by_cases h : jsTruthy dateSlot <;> simp [h]

/-- Lower-casing a string preserves emptiness. -/
theorem lowerStr_eq_empty (v : String) : (lowerStr v = "") ↔ (v = "") := by
  simp [lowerStr, String.ext_iff]

/-- For a non-empty city slot value, the `station` field of the resolved
city is exactly the directory lookup of the lower-cased value, in the
found and the not-found case alike. -/
theorem station_of_valued (v : String) (d : Option String) (ad : Bool) (hv : v ≠ "") :
    (getCityStationFromIntent { city := some v, date := d } ad).station =
      stationsLookup (lowerStr v) := by
  unfold getCityStationFromIntent
  simp only [jsTruthy, jsStr, hv, ne_eq, not_false_eq_true, decide_eq_true_eq,
    Bool.not_true, if_false, decide_not]
  cases h : stationsLookup (lowerStr v) <;> simp [h]

/-! ## Claim theorems -/

/-- Claim C1. The claim asserts that a supplied but unparseable date slot
value makes `getDateFromIntent` return a failure distinct from the
no-input default, making the `!date` branches of the callers reachable.
The code does the opposite: the first conjunct shows that for every
parser, formatter and slot value the function returns an object (truthy,
so the `!date` branches are dead code); the second evaluates it under a
parser that rejects "not a date" (an Invalid Date, all accessors NaN)
and shows it still returns an object, whose query parameter is the
garbage string "begin_date=NaNNaNNaN&range=24". -/
theorem c1_getDateFromIntent_always_returns :
    (∀ (parse : String → Option DateFields) (fmtDate : JSDateParts → String)
        (dateSlot : Option String),
      (getDateFromIntent parse fmtDate dateSlot).isSome = true) ∧
    (∀ fmtDate : JSDateParts → String,
      (getDateFromIntent (fun _ => none) fmtDate (some "not a date")).map
          ResolvedDate.requestDateParam = some "begin_date=NaNNaNNaN&range=24") :=
  ⟨fun parse fmtDate dateSlot => getDateFromIntent_isSome parse fmtDate dateSlot,
   fun _ => rfl⟩

/-- Claim C2. The claim asserts that a prediction series lacking the
required direction reversals is surfaced as the generic
service-unavailable message and the turn never crashes. In the code a
strictly rising series leaves `lowTide` and `secondHighTide` undefined,
`findHighTide` throws, and the turn ends with no response at all: on a
200 response carrying `risingSeries`, `getFinalTideResponse` emits no
response and the handlers crash. -/
theorem c2_malformed_series_crashes_turn :
    ∀ (parse : String → Option DateFields) (fmtDate : JSDateParts → String)
      (fmtTime : String → String) (cityStation : CityStation)
      (date : ResolvedDate) (session : Session),
      (getFinalTideResponse
          { parse := parse, fmtDate := fmtDate, fmtTime := fmtTime,
            net := .response { statusCode := 200, body := some (.withPredictions risingSeries) } }
          cityStation date session).responses = [] ∧
      (getFinalTideResponse
          { parse := parse, fmtDate := fmtDate, fmtTime := fmtTime,
            net := .response { statusCode := 200, body := some (.withPredictions risingSeries) } }
          cityStation date session).crashed = true :=
  fun _ _ _ _ _ _ => ⟨rfl, rfl⟩

/-- Claim C3. The claim asserts all three fetch-failure causes produce
the identical "service is experiencing a problem" message via exactly
one error callback. For the remote-application-error cause the code
reads the misspelt variable `noaaResponseObj` and throws a
ReferenceError before invoking the callback, so a 200 response whose
body carries an `error` field produces no spoken response at all (first
conjunct); the transport-error cause does behave as claimed (second
conjunct). -/
theorem c3_remote_error_payload_produces_no_message :
    (∀ (parse : String → Option DateFields) (fmtDate : JSDateParts → String)
        (fmtTime : String → String) (msg : String) (cityStation : CityStation)
        (date : ResolvedDate) (session : Session),
      (getFinalTideResponse
          { parse := parse, fmtDate := fmtDate, fmtTime := fmtTime,
            net := .response { statusCode := 200, body := some (.withError msg) } }
          cityStation date session).responses = [] ∧
      (getFinalTideResponse
          { parse := parse, fmtDate := fmtDate, fmtTime := fmtTime,
            net := .response { statusCode := 200, body := some (.withError msg) } }
          cityStation date session).crashed = true) ∧
    (∀ (parse : String → Option DateFields) (fmtDate : JSDateParts → String)
        (fmtTime : String → String) (msg : String) (cityStation : CityStation)
        (date : ResolvedDate) (session : Session),
      (getFinalTideResponse
          { parse := parse, fmtDate := fmtDate, fmtTime := fmtTime,
            net := .transportError msg } cityStation date session).responses =
        [.tellWithCard serviceProblemText "CapeCodTides" serviceProblemText] ∧
      (getFinalTideResponse
          { parse := parse, fmtDate := fmtDate, fmtTime := fmtTime,
            net := .transportError msg } cityStation date session).crashed = false) :=
  ⟨fun _ _ _ _ _ _ _ => ⟨rfl, rfl⟩, fun _ _ _ _ _ _ _ => ⟨rfl, rfl⟩⟩

/-- Claim C4 (counterexample). On the specification's synthetic series
the extracted heights render with numerals — "4 feet" and "6 feet" —
not as the spelled-out "four feet"/"six feet" the claim states. -/
theorem c4_heights_not_spelled_out :
    (findHighTide id synthSeries).map TideResult.firstHighTideHeight ≠ some "four feet" ∧
    (findHighTide id synthSeries).map TideResult.firstHighTideHeight = some "4 feet" ∧
    (findHighTide id synthSeries).map TideResult.secondHighTideHeight ≠ some "six feet" := by
  exact ⟨by decide, by decide, by decide⟩

/-- Claim C4 (amended). On the synthetic series that rises to 4.0 at t1,
falls to 0.5 at t2, rises to 6.0 at t3 and falls afterward,
`findHighTide` records the first high at t1 with height "4 feet", the
low at t2, and the second high at t3 with height "6 feet" — each extreme
being the last sample of its run — for every time formatter. -/
theorem c4_tide_extraction_synthetic_series :
    ∀ fmtTime : String → String,
      findHighTide fmtTime synthSeries =
        some { firstHighTideTime := fmtTime "t1", firstHighTideHeight := "4 feet",
               lowTideTime := fmtTime "t2", lowTideHeight := "0 and a half feet",
               secondHighTideTime := fmtTime "t3", secondHighTideHeight := "6 feet" } :=
  fun _ => rfl

/-- Claim C5 (counterexample). Two deviations from the claim as stated:
4.1 is formatted "4 feet" with a numeral, not "four feet" as the claim
spells it; and 4.75, whose fractional part .75 the claim's ".25–.75"
band sends to a half, is formatted "5 feet" — the source tests
`remainder < 0.75`, so from .75 on it rounds to the whole number
above. -/
theorem c5_formatting_counterexample :
    (getFormattedHeight (mkRat 41 10) ≠ "four feet" ∧
      getFormattedHeight (mkRat 41 10) = "4 feet") ∧
    (getFormattedHeight (mkRat 19 4) ≠ "four and a half feet" ∧
      getFormattedHeight (mkRat 19 4) ≠ "4 and a half feet" ∧
      getFormattedHeight (mkRat 19 4) = "5 feet") := by
  exact ⟨⟨by decide, by decide⟩, ⟨by decide, by decide, by decide⟩⟩

/-- Claim C5 (amended). Height formatting bands the fractional part of
the magnitude (below .25 to the whole number below, from .25 up to but
excluding .75 to a half, from .75 on to the whole number above),
restores the sign, and renders "<N> feet"/"<N> and a half feet" with N
a numeral: `getFormattedHeight` agrees with the band-and-render rule
`getFormattedHeightSpec` on every rational, and on the claim's examples
yields "4 feet", "4 and a half feet", "5 feet" and
"-4 and a half feet". -/
theorem c5_height_banding :
    getFormattedHeight (mkRat 41 10) = "4 feet" ∧
    getFormattedHeight (mkRat 43 10) = "4 and a half feet" ∧
    getFormattedHeight (mkRat 48 10) = "5 feet" ∧
    getFormattedHeight (mkRat (-43) 10) = "-4 and a half feet" ∧
    ∀ h : ℚ, getFormattedHeight h = getFormattedHeightSpec h := by
  refine ⟨by decide, by decide, by decide, by decide, ?_⟩
  intro h
  unfold getFormattedHeight getFormattedHeightSpec
  have habs : (if h < 0 then -h else h) = |h| := by
    by_cases h0 : h < 0
    · simp [h0, abs_of_neg h0]
    · simp [h0, abs_of_nonneg (not_lt.mp h0)]
  have h14 : mkRat 1 4 = (1 : ℚ)/4 := by rw [Rat.mkRat_eq_div]; norm_num
  have h34 : mkRat 3 4 = (3 : ℚ)/4 := by rw [Rat.mkRat_eq_div]; norm_num
  simp only [habs, ratMod1_eq_fract, h14, h34]
  by_cases hc1 : Int.fract |h| < (1 : ℚ)/4
  · simp only [if_pos hc1]
    rfl
  · simp only [if_neg hc1]
    by_cases hc2 : Int.fract |h| < (3 : ℚ)/4
    · simp only [if_pos hc2]
      rfl
    · simp only [if_neg hc2]
      rfl

/-- Claim C6 (counterexample). The city value "constructor" is not in
the Station Directory, yet `STATIONS['constructor']` is truthy through
the prototype chain, so the one-shot success path runs and an outbound
fetch is made — the claim's universal "no network call for any city
value outside the directory" is false at this input. -/
theorem c6_prototype_chain_counterexample :
    ("constructor" ∉ STATIONS.map Prod.fst) ∧
    (handleOneshotTideRequest sampleHost { city := some "constructor", date := none }
        ⟨none, none⟩).fetches =
      [{ station := some (JSProp.inherited "constructor"), dateParam := "date=today" }] ∧
    (handleOneshotTideRequest sampleHost { city := some "constructor", date := none }
        ⟨none, none⟩).fetches ≠ [] := by
  exact ⟨by decide, by decide, by decide⟩

/-- Claim C6 (amended). A one-shot request whose city slot carries a
non-empty value whose lower-cased form is neither a Station Directory
key nor an inherited `Object.prototype` property name gets the
unknown-city `ask` (session kept open) whose re-prompt lists the
supported towns, makes no fetch, and leaves the session untouched; the
outcome is the same for every date slot value and host behaviour — the
date slot is never evaluated. -/
theorem c6_unknown_city_oneshot :
    ∀ (host : Host) (v : String) (d : Option String) (session : Session),
      v ≠ "" → stationsLookup (lowerStr v) = none →
      handleOneshotTideRequest host { city := some v, date := d } session =
        { responses := [.ask ("I\x27m sorry, I don\x27t have any data for " ++ v ++ ". "
              ++ coastalTownsReprompt) coastalTownsReprompt],
          session := session, fetches := [], crashed := false } := by
  intro host v d session hv hlook
  have hcs : getCityStationFromIntent { city := some v, date := d } true =
      { error := true, city := some v, station := none } := by
    unfold getCityStationFromIntent
    simp only [jsTruthy, jsStr, hv, ne_eq, not_false_eq_true, decide_eq_true_eq,
      Bool.not_true, if_false, decide_not]
    rw [hlook]
    simp
  unfold handleOneshotTideRequest
  rw [hcs]
  simp [unknownCitySpeech, hv]

/-- Claim C6 witness: the specification's instance, city "Nowhereville"
with date "Saturday" on a fresh session. -/
theorem c6_unknown_city_oneshot_witness :
    ("Nowhereville" ≠ "") ∧ stationsLookup (lowerStr "Nowhereville") = none ∧
    handleOneshotTideRequest sampleHost
        { city := some "Nowhereville", date := some "Saturday" } ⟨none, none⟩ =
      { responses := [.ask ("I\x27m sorry, I don\x27t have any data for Nowhereville. "
            ++ coastalTownsReprompt) coastalTownsReprompt],
        session := ⟨none, none⟩, fetches := [], crashed := false } :=
  ⟨by decide, by decide,
    c6_unknown_city_oneshot sampleHost "Nowhereville" (some "Saturday") ⟨none, none⟩
      (by decide) (by decide)⟩

/-- Claim C7. Multi-turn dialog: with no date stored, a turn carrying
city "Plymouth" asks "For which date?", fetches nothing and stores
Plymouth's resolved station in the session; a following turn carrying a
date value the host can parse performs exactly one fetch, parameterized
by Plymouth's station 8446493 and the resolved date's query
parameters. -/
theorem c7_multi_turn_city_then_date :
    ∀ (host : Host) (dval : String) (f : DateFields) (sess : Session),
      sess.date = none → host.parse dval = some f → dval ≠ "" →
      (dialogTideIntent host { city := some "Plymouth", date := none } sess).responses =
          [.ask "For which date?"
            "For which date would you like tide information for Plymouth?"] ∧
      (dialogTideIntent host { city := some "Plymouth", date := none } sess).fetches = [] ∧
      (dialogTideIntent host { city := some "Plymouth", date := none } sess).session.city =
          some { error := false, city := some "Plymouth", station := some (JSProp.num 8446493) } ∧
      ∃ r, getDateFromIntent host.parse host.fmtDate (some dval) = some r ∧
        (dialogTideIntent host { city := none, date := some dval }
            (dialogTideIntent host { city := some "Plymouth", date := none } sess).session).fetches
          = [{ station := some (JSProp.num 8446493), dateParam := r.requestDateParam }] := by
  intro host dval f sess hdate hparse hval
  obtain ⟨sc, sd⟩ := sess
  dsimp only at hdate
  subst hdate
  have hturn1 : dialogTideIntent host { city := some "Plymouth", date := none }
      (⟨sc, none⟩ : Session) =
      { responses := [.ask "For which date?"
          "For which date would you like tide information for Plymouth?"],
        session := ⟨some { error := false, city := some "Plymouth", station := some (JSProp.num 8446493) },
          none⟩,
        fetches := [], crashed := false } := rfl
  rw [hturn1]
  refine ⟨rfl, rfl, rfl, ?_⟩
  have hsome := getDateFromIntent_isSome host.parse host.fmtDate (some dval)
  obtain ⟨r, hr⟩ := Option.isSome_iff_exists.mp hsome
  refine ⟨r, hr, ?_⟩
  unfold dialogTideIntent
  simp only [jsTruthy, hval, ne_eq, not_false_eq_true, decide_eq_true_eq, decide_not,
    Bool.not_false, if_true, if_false, Bool.false_eq_true]
  unfold handleDateDialogRequest
  rw [hr]
  rfl

/-- Claim C7 witness: the two turns instantiated at `sampleHost` with
the date value "saturday" on a fresh session. -/
theorem c7_multi_turn_city_then_date_witness :
    (⟨none, none⟩ : Session).date = none ∧
    sampleHost.parse "saturday" = some { year := 2017, month := 5, day := 20 } ∧
    "saturday" ≠ "" ∧
    ((dialogTideIntent sampleHost { city := some "Plymouth", date := none }
        ⟨none, none⟩).responses =
        [.ask "For which date?"
          "For which date would you like tide information for Plymouth?"] ∧
      (dialogTideIntent sampleHost { city := some "Plymouth", date := none }
        ⟨none, none⟩).fetches = [] ∧
      (dialogTideIntent sampleHost { city := some "Plymouth", date := none }
        ⟨none, none⟩).session.city =
          some { error := false, city := some "Plymouth", station := some (JSProp.num 8446493) } ∧
      ∃ r, getDateFromIntent sampleHost.parse sampleHost.fmtDate (some "saturday") = some r ∧
        (dialogTideIntent sampleHost { city := none, date := some "saturday" }
            (dialogTideIntent sampleHost { city := some "Plymouth", date := none }
              ⟨none, none⟩).session).fetches
          = [{ station := some (JSProp.num 8446493), dateParam := r.requestDateParam }]) :=
  ⟨rfl, rfl, by decide,
    c7_multi_turn_city_then_date sampleHost "saturday"
      { year := 2017, month := 5, day := 20 } ⟨none, none⟩ rfl rfl (by decide)⟩

/-- Claim C8. City slot values that agree after lower-casing resolve to
the same station identifier, whatever the other slot and the default
flag are: the `station` field of `getCityStationFromIntent` depends on
the value only through its lower-cased form. -/
theorem c8_city_lookup_case_insensitive :
    ∀ (assignDefault : Bool) (d1 d2 : Option String) (v1 v2 : String),
      lowerStr v1 = lowerStr v2 →
      (getCityStationFromIntent { city := some v1, date := d1 } assignDefault).station =
        (getCityStationFromIntent { city := some v2, date := d2 } assignDefault).station := by
  intro ad d1 d2 v1 v2 hlow
  by_cases h1 : v1 = ""
  · have h2 : v2 = "" := by
      rw [← lowerStr_eq_empty, ← hlow, lowerStr_eq_empty]
      exact h1
    subst h1
    subst h2
    rfl
  · have h2 : v2 ≠ "" := by
      intro he
      apply h1
      rw [← lowerStr_eq_empty, hlow, lowerStr_eq_empty]
      exact he
    rw [station_of_valued v1 d1 ad h1, station_of_valued v2 d2 ad h2, hlow]

/-- Claim C8 witness: "Plymouth" and "PLYMOUTH" resolve to the same
station. -/
theorem c8_city_lookup_case_insensitive_witness :
    lowerStr "Plymouth" = lowerStr "PLYMOUTH" ∧
    (getCityStationFromIntent { city := some "Plymouth", date := none } false).station =
      (getCityStationFromIntent { city := some "PLYMOUTH", date := none } false).station :=
  ⟨by decide, c8_city_lookup_case_insensitive false none none "Plymouth" "PLYMOUTH" (by decide)⟩

/-- Claim C9. A non-200 response whose body is nonetheless valid JSON
with a usable predictions series completes the callback twice: first
with the "Non 200 Response" error, then — because the error path does
not return and the body is still consumed — with a success carrying the
extracted tides. -/
theorem c9_non200_double_callback :
    ∀ fmtTime : String → String,
      makeTideRequestRun fmtTime
          (.response { statusCode := 500, body := some (.withPredictions synthSeries) }) =
        { calls := [.err "Non 200 Response",
            .ok { firstHighTideTime := fmtTime "t1", firstHighTideHeight := "4 feet",
                  lowTideTime := fmtTime "t2", lowTideHeight := "0 and a half feet",
                  secondHighTideTime := fmtTime "t3", secondHighTideHeight := "6 feet" }],
          crashed := false } :=
  fun _ => rfl

/-- Claim C10. In `DialogTideIntent`, a request with a valued City slot
is handled identically whatever the Date slot of the same request
carries (the date value is discarded); and with city "Plymouth" and no
date stored, the turn still asks "For which date?" and stores no
date. -/
theorem c10_city_slot_precedence :
    (∀ (host : Host) (cv d1 d2 : Option String) (sess : Session),
      jsTruthy cv = true →
      dialogTideIntent host { city := cv, date := d1 } sess =
        dialogTideIntent host { city := cv, date := d2 } sess) ∧
    (∀ (host : Host) (d : Option String) (sess : Session),
      sess.date = none →
      (dialogTideIntent host { city := some "Plymouth", date := d } sess).responses =
          [.ask "For which date?"
            "For which date would you like tide information for Plymouth?"] ∧
      (dialogTideIntent host { city := some "Plymouth", date := d } sess).session.date
        = none) := by
  constructor
  · intro host cv d1 d2 sess hcv
    unfold dialogTideIntent
    dsimp only
    rw [hcv]
    rfl
  · intro host d sess hdate
    obtain ⟨sc, sd⟩ := sess
    dsimp only at hdate
    subst hdate
    exact ⟨rfl, rfl⟩

/-- Claim C10 witness: both parts instantiated at `sampleHost`, city
"Plymouth", date value "saturday", fresh session. -/
theorem c10_city_slot_precedence_witness :
    (jsTruthy (some "Plymouth") = true ∧
      dialogTideIntent sampleHost { city := some "Plymouth", date := some "saturday" }
          ⟨none, none⟩ =
        dialogTideIntent sampleHost { city := some "Plymouth", date := none } ⟨none, none⟩) ∧
    ((⟨none, none⟩ : Session).date = none ∧
      ((dialogTideIntent sampleHost { city := some "Plymouth", date := some "saturday" }
          ⟨none, none⟩).responses =
          [.ask "For which date?"
            "For which date would you like tide information for Plymouth?"] ∧
        (dialogTideIntent sampleHost { city := some "Plymouth", date := some "saturday" }
          ⟨none, none⟩).session.date = none)) :=
  ⟨⟨by decide,
      c10_city_slot_precedence.1 sampleHost (some "Plymouth") (some "saturday") none
        ⟨none, none⟩ (by decide)⟩,
    ⟨rfl, c10_city_slot_precedence.2 sampleHost (some "saturday") ⟨none, none⟩ rfl⟩⟩

end CapeCodTides
